import Mathlib

/-!
Verification of the Cellosaurus MCP tool layer.

The repository exposes the Cellosaurus REST API as MCP tools. The tool logic
is embedded here from the helper functions in tests/test_app.py, which mirror
the actual tools line by line. The request models and the parameter builder
live in modules that are not part of the available sources, so those two
pieces are modelled from the specification, as marked on their definitions.

The Transport Client is represented as a function from a request to either a
decoded JSON value or a failure cause string; each tool returns its payload
together with the list of requests it handed to the client, so that claims
about the client being or not being invoked are statable.
-/

/-- JSON values as returned by the remote Cellosaurus API and passed through
by the tools unchanged. -/
inductive Json where
  | null
  | bool (b : Bool)
  | num (n : Int)
  | str (s : String)
  | arr (elems : List Json)
  | obj (members : List (String × Json))

/-- Modelled from the spec: the Format enumeration of the missing models.py is
a closed enumeration of output formats with default JSON. -/
inductive Format where
  | json
  | txt
  | xml
deriving DecidableEq

/-- Static vocabulary of recognized field codes with their descriptions,
transcribed from the list-available-fields helper in tests/test_app.py. -/
def list_available_fields : List (String × String) :=
  [("id", "Recommended name of the cell line"),
   ("sy", "List of synonyms"),
   ("idsy", "Recommended name with all synonyms"),
   ("ac", "Primary accession (unique identifier)"),
   ("acas", "Primary and secondary accessions"),
   ("dr", "Cross-references to external resources"),
   ("ref", "Publication references"),
   ("rx", "Publication cross-reference"),
   ("ra", "Publication authors"),
   ("rt", "Publication title"),
   ("rl", "Publication citation elements"),
   ("ww", "Web page related to the cell line"),
   ("genome-ancestry", "Ethnic ancestry based on genome analysis"),
   ("hla", "HLA typing information"),
   ("sequence-variation", "Important sequence variations"),
   ("cell-type", "Cell type from which the cell line is derived"),
   ("derived-from-site", "Body part (tissue/organ) the cell line is derived from"),
   ("karyotype", "Chromosomal information"),
   ("str", "Short tandem repeat profile"),
   ("di", "Diseases suffered by the donor"),
   ("ox", "Species of origin with NCBI taxon identifier"),
   ("sx", "Sex of the individual"),
   ("ag", "Age at sampling time"),
   ("hi", "Parent cell line"),
   ("ch", "Child cell lines"),
   ("oi", "Sister cell lines from same individual"),
   ("ca", "Category (e.g., cancer cell line, hybridoma)"),
   ("cc", "Various structured comments"),
   ("dt", "Creation/modification dates and version")]

/-- Codes of the field vocabulary. -/
def fieldCodes : List String := List.map Prod.fst list_available_fields

/-- Modelled from the spec: constructing a CellosaurusField value (missing
models.py) from a string succeeds exactly on vocabulary codes and otherwise
fails with a ValueError-style message. -/
def cellosaurusFieldOfCode (code : String) : Except String String :=
  if List.contains fieldCodes code then Except.ok code
  else Except.error (code ++ (" is not a valid CellosaurusField"))

/-- Field validation loop of the tool helpers: convert each caller-supplied
code, aborting at the first unrecognized one, mirroring the list
comprehension inside the try block of tests/test_app.py. -/
def parseFields : List String → Except String (List String)
  | [] => Except.ok []
  | f :: fs =>
    match cellosaurusFieldOfCode f with
    | Except.error e => Except.error e
    | Except.ok v =>
      match parseFields fs with
      | Except.error e => Except.error e
      | Except.ok vs => Except.ok (v :: vs)

/-- Shared field-handling step of the tools: an absent or empty fields
argument leaves the parsed fields as none (the Python code skips validation
when fields is falsy); otherwise every code is validated. -/
def fieldsStep : Option (List String) → Except String (Option (List String))
  | none => Except.ok none
  | some [] => Except.ok none
  | some (f :: fs) => Except.map some (parseFields (f :: fs))

/-- Error payload shape used by every tool. -/
def errorPayload (msg : String) : Json := Json.obj [("error", Json.str msg)]

/-- Search request model transcribed from its uses in tests/test_app.py. -/
structure SearchRequest where
  query : String
  fields : Option (List String)
  start : Int
  rows : Int
  sort : Option String
  format : Format
deriving DecidableEq

/-- Modelled from the spec: SearchRequest construction (missing models.py)
clamps rows into the interval from 1 to 1000 and defaults format to JSON. -/
def mkSearchRequest (query : String) (fields : Option (List String)) (start rows : Int)
    (sort : Option String) : SearchRequest :=
  { query := query, fields := fields, start := start,
    rows := max 1 (min rows 1000), sort := sort, format := Format.json }

/-- Single cell-line lookup request model transcribed from tests/test_app.py. -/
structure CellLineRequest where
  accession : String
  fields : Option (List String)
  format : Format
deriving DecidableEq

/-- CellLineRequest construction with the JSON default format. -/
def mkCellLineRequest (accession : String) (fields : Option (List String)) : CellLineRequest :=
  { accession := accession, fields := fields, format := Format.json }

/-- Try/except block around the search call of the Transport Client: the
payload together with the requests handed to the client. -/
def sendSearch (client : SearchRequest → Except String Json) (request : SearchRequest) :
    Json × List SearchRequest :=
  match client request with
  | Except.ok value => (value, [request])
  | Except.error e => (errorPayload (("Search failed: ") ++ e), [request])

/-- Try/except block around the single-lookup call of the Transport Client. -/
def sendGetCellLine (client : CellLineRequest → Except String Json)
    (request : CellLineRequest) : Json × List CellLineRequest :=
  match client request with
  | Except.ok value => (value, [request])
  | Except.error e => (errorPayload (("Failed to get cell line info: ") ++ e), [request])

/-- Tool search-cell-lines, embedded from its helper in tests/test_app.py:
validate fields, build the request with rows reduced with min to 1000, call
the client inside try/except. The second component records the requests
handed to the Transport Client. -/
def search_cell_lines (client : SearchRequest → Except String Json) (query : String)
    (fields : Option (List String)) (start rows : Int) (sortOrder : Option String) :
    Json × List SearchRequest :=
  match fieldsStep fields with
  | Except.error e => (errorPayload (("Invalid field specified: ") ++ e), [])
  | Except.ok fieldEnums =>
    sendSearch client (mkSearchRequest query fieldEnums start (min rows 1000) sortOrder)

/-- Tool get-cell-line-info, embedded from its helper in tests/test_app.py. -/
def get_cell_line_info (client : CellLineRequest → Except String Json) (accession : String)
    (fields : Option (List String)) : Json × List CellLineRequest :=
  match fieldsStep fields with
  | Except.error e => (errorPayload (("Invalid field specified: ") ++ e), [])
  | Except.ok fieldEnums => sendGetCellLine client (mkCellLineRequest accession fieldEnums)

/-- Python truthiness of the expression fields or default: None and the empty
list both give the default, any non-empty list is kept. -/
def pyFieldsOr : Option (List String) → List String → List String
  | none, dflt => dflt
  | some [], dflt => dflt
  | some (f :: fs), _ => f :: fs

/-- Default field list of the find-by-disease tool. -/
def diseaseDefaultFields : List String := ["id", "ac", "di", "ox", "derived-from-site"]

/-- Default field list of the find-by-tissue tool. -/
def tissueDefaultFields : List String := ["id", "ac", "derived-from-site", "ox", "cell-type"]

/-- Query composition of find-cell-lines-by-disease: the di filter plus an
optional species filter, joined with spaces; the ox part is appended only
when species is truthy (non-empty). -/
def diseaseQuery (disease species : String) : String :=
  String.intercalate (" ")
    (((("di:") ++ disease)) :: (if species.isEmpty then [] else [("ox:") ++ species]))

/-- Query composition of find-cell-lines-by-tissue. -/
def tissueQuery (tissue species : String) : String :=
  String.intercalate (" ")
    (((("derived-from-site:") ++ tissue)) :: (if species.isEmpty then [] else [("ox:") ++ species]))

/-- Tool find-cell-lines-by-disease, embedded from its helper in
tests/test_app.py: compose the query and delegate to search-cell-lines with
the caller fields or the disease default list, and rows equal to limit. -/
def find_cell_lines_by_disease (client : SearchRequest → Except String Json)
    (disease species : String) (fields : Option (List String)) (limit : Int) :
    Json × List SearchRequest :=
  search_cell_lines client (diseaseQuery disease species)
    (some (pyFieldsOr fields diseaseDefaultFields)) 0 limit none

/-- Tool find-cell-lines-by-tissue, embedded from its helper in
tests/test_app.py. -/
def find_cell_lines_by_tissue (client : SearchRequest → Except String Json)
    (tissue species : String) (fields : Option (List String)) (limit : Int) :
    Json × List SearchRequest :=
  search_cell_lines client (tissueQuery tissue species)
    (some (pyFieldsOr fields tissueDefaultFields)) 0 limit none

/-- Scalar query-parameter values. -/
inductive ParamValue where
  | str (s : String)
  | int (n : Int)
deriving DecidableEq

/-- Code string of an output format. -/
def formatCode : Format → String
  | Format.json => "json"
  | Format.txt => "txt"
  | Format.xml => "xml"

/-- Modelled from the spec: the parameter builder of the Transport Client
(missing client.py) for search requests: query becomes q; non-empty fields
become a comma-joined string in the order given; start and rows are carried
verbatim; sort only if present; format only if different from the JSON
default. -/
def build_params_search (r : SearchRequest) : List (String × ParamValue) :=
  [("q", ParamValue.str r.query)]
    ++ (match r.fields with
        | some (f :: fs) => [("fields", ParamValue.str (String.intercalate (",") (f :: fs)))]
        | _ => [])
    ++ [("start", ParamValue.int r.start), ("rows", ParamValue.int r.rows)]
    ++ (match r.sort with
        | some s => [("sort", ParamValue.str s)]
        | none => [])
    ++ (match r.format with
        | Format.json => []
        | f => [("format", ParamValue.str (formatCode f))])

/-- Modelled from the spec: the parameter builder for single-entity lookup
requests has no q, start or rows; non-empty fields are comma-joined; format
only if different from the JSON default. -/
def build_params_cell_line (r : CellLineRequest) : List (String × ParamValue) :=
  (match r.fields with
    | some (f :: fs) => [("fields", ParamValue.str (String.intercalate (",") (f :: fs)))]
    | _ => [])
    ++ (match r.format with
        | Format.json => []
        | f => [("format", ParamValue.str (formatCode f))])

/-- Default search request of the spec: query id:HeLa, no fields, start 0,
rows 1000 after the clamp, default format. -/
def defaultSearchRequest : SearchRequest := mkSearchRequest ("id:HeLa") none 0 1000 none

/-- Stub remote response of the pass-through scenario. -/
def stubSearchResponse : Json :=
  Json.obj
    [("results", Json.arr
        [Json.obj [("id", Json.str ("HeLa")), ("ac", Json.str ("CVCL_0030"))],
         Json.obj [("id", Json.str ("HeLa-S3")), ("ac", Json.str ("CVCL_0031"))]]),
     ("total_found", Json.num 2)]

/-- Joining a space in front of an ox term associates into a single literal. -/
theorem space_ox_append (s : String) : (" ") ++ ((("ox:")) ++ s) = (" ox:") ++ s := by
  rw [← String.append_assoc]
  rfl

/-- The try/except wrapper always hands exactly its one request to the client. -/
theorem sendSearch_trace (client : SearchRequest → Except String Json) (r : SearchRequest) :
    (sendSearch client r).2 = [r] := by
  unfold sendSearch
  cases client r <;> rfl

/-- The rows parameter is always present and carries the rows of the request. -/
theorem build_params_search_rows (r : SearchRequest) :
    List.lookup ("rows") (build_params_search r) = some (ParamValue.int r.rows) := by
  obtain ⟨q, f, st, ro, so, fo⟩ := r
  cases f with
  | none => cases so <;> cases fo <;> rfl
  | some l => cases l <;> cases so <;> cases fo <;> rfl

/-- A list holding a code outside the vocabulary fails validation. -/
theorem parseFields_error_of_invalid (fs : List String) (c : String) (hmem : c ∈ fs)
    (hbad : List.contains fieldCodes c = false) :
    ∃ e, parseFields fs = Except.error e := by
  induction fs with
  | nil => cases hmem
  | cons f fs ih =>
    cases hf : List.contains fieldCodes f with
    | false =>
      refine ⟨f ++ (" is not a valid CellosaurusField"), ?_⟩
      unfold parseFields cellosaurusFieldOfCode
      rw [hf]
      exact rfl
    | true =>
      have hcfs : c ∈ fs := by
        cases hmem with
        | head => rw [hf] at hbad; exact Bool.noConfusion hbad
        | tail _ h => exact h
      obtain ⟨e, he⟩ := ih hcfs
      refine ⟨e, ?_⟩
      unfold parseFields cellosaurusFieldOfCode
      rw [hf, he]
      exact rfl

/-- Claim C1: whenever the fields argument of the search or lookup tool holds
at least one code outside the field vocabulary, the tool returns an error
payload whose message contains the substring Invalid field (here exhibited as
a prefix), and the Transport Client is never invoked (the request trace is
empty). -/
theorem invalid_field_yields_error_and_no_client_call
    (fs : List String) (c : String) (hmem : c ∈ fs)
    (hbad : List.contains fieldCodes c = false)
    (client : SearchRequest → Except String Json)
    (clientCL : CellLineRequest → Except String Json)
    (query accession : String) (start rows : Int) (sortOrder : Option String) :
    (∃ detail,
        search_cell_lines client query (some fs) start rows sortOrder
          = (errorPayload (("Invalid field") ++ detail), []))
      ∧ (∃ detail,
        get_cell_line_info clientCL accession (some fs)
          = (errorPayload (("Invalid field") ++ detail), [])) := by
  cases fs with
  | nil => cases hmem
  | cons f fst =>
    obtain ⟨e, he⟩ := parseFields_error_of_invalid (f :: fst) c hmem hbad
    constructor
    · refine ⟨(" specified: ") ++ e, ?_⟩
      have h1 : search_cell_lines client query (some (f :: fst)) start rows sortOrder
          = (errorPayload (("Invalid field specified: ") ++ e), []) := by
        simp [search_cell_lines, fieldsStep, he, Except.map]
      rw [h1]
      exact rfl
    · refine ⟨(" specified: ") ++ e, ?_⟩
      have h1 : get_cell_line_info clientCL accession (some (f :: fst))
          = (errorPayload (("Invalid field specified: ") ++ e), []) := by
        simp [get_cell_line_info, fieldsStep, he, Except.map]
      rw [h1]
      exact rfl

/-- Witness for claim C1 at the concrete invalid code bogus. -/
theorem invalid_field_yields_error_and_no_client_call_witness :
    (∃ detail,
        search_cell_lines (fun _ => Except.ok Json.null) ("id:HeLa") (some ["bogus"]) 0 10 none
          = (errorPayload (("Invalid field") ++ detail), []))
      ∧ (∃ detail,
        get_cell_line_info (fun _ => Except.ok Json.null) ("CVCL_0030") (some ["bogus"])
          = (errorPayload (("Invalid field") ++ detail), [])) :=
  invalid_field_yields_error_and_no_client_call ["bogus"] ("bogus") (by decide) (by decide)
    (fun _ => Except.ok Json.null) (fun _ => Except.ok Json.null)
    ("id:HeLa") ("CVCL_0030") 0 10 none

/-- Claim C2: every SearchRequest handed to the Transport Client by the
search tool has rows in the interval from 1 to 1000; above 1000 the built
parameters carry rows 1000, and below 1 the rows are clamped up to 1. -/
theorem rows_clamped_into_range
    (client : SearchRequest → Except String Json) (query : String)
    (fields : Option (List String)) (start rows : Int) (sortOrder : Option String)
    (req : SearchRequest)
    (hmem : req ∈ (search_cell_lines client query fields start rows sortOrder).2) :
    1 ≤ req.rows ∧ req.rows ≤ 1000
      ∧ (1000 < rows →
          List.lookup ("rows") (build_params_search req) = some (ParamValue.int 1000))
      ∧ (rows < 1 → req.rows = 1) := by
  unfold search_cell_lines at hmem
  cases hstep : fieldsStep fields with
  | error e =>
    rw [hstep] at hmem
    simp at hmem
  | ok fe =>
    rw [hstep] at hmem
    simp only [sendSearch_trace, List.mem_singleton] at hmem
    subst hmem
    refine ⟨?_, ?_, ?_, ?_⟩
    · show 1 ≤ max 1 (min (min rows 1000) 1000)
      omega
    · show max 1 (min (min rows 1000) 1000) ≤ 1000
      omega
    · intro h
      rw [build_params_search_rows]
      have hr : (mkSearchRequest query fe start (min rows 1000) sortOrder).rows = 1000 := by
        show max 1 (min (min rows 1000) 1000) = 1000
        omega
      rw [hr]
    · intro h
      show max 1 (min (min rows 1000) 1000) = 1
      omega

/-- Witness for claim C2 at rows 2000. -/
theorem rows_clamped_into_range_witness :
    1 ≤ (mkSearchRequest ("id:HeLa") none 0 (min 2000 1000) none).rows
      ∧ (mkSearchRequest ("id:HeLa") none 0 (min 2000 1000) none).rows ≤ 1000
      ∧ (1000 < (2000 : Int) →
          List.lookup ("rows")
              (build_params_search (mkSearchRequest ("id:HeLa") none 0 (min 2000 1000) none))
            = some (ParamValue.int 1000))
      ∧ ((2000 : Int) < 1 →
          (mkSearchRequest ("id:HeLa") none 0 (min 2000 1000) none).rows = 1) :=
  rows_clamped_into_range (fun _ => Except.ok Json.null) ("id:HeLa") none 0 2000 none
    (mkSearchRequest ("id:HeLa") none 0 (min 2000 1000) none) (by decide)

/-- Claim C3: every failure reported by the Transport Client during a tool
call is converted into a data payload with the Search failed or Failed to get
cell line info message; the tools are total functions into JSON payloads, so
no exception crosses the facade boundary. -/
theorem transport_failure_becomes_error_payload
    (cause query accession : String) (fields cfields : Option (List String))
    (start rows : Int) (sortOrder : Option String) (fe cfe : Option (List String))
    (hf : fieldsStep fields = Except.ok fe) (hc : fieldsStep cfields = Except.ok cfe) :
    (search_cell_lines (fun _ => Except.error cause) query fields start rows sortOrder).1
        = errorPayload (("Search failed: ") ++ cause)
      ∧ (get_cell_line_info (fun _ => Except.error cause) accession cfields).1
        = errorPayload (("Failed to get cell line info: ") ++ cause) := by
  constructor
  · simp [search_cell_lines, hf, sendSearch]
  · simp [get_cell_line_info, hc, sendGetCellLine]

/-- Witness for claim C3 at the concrete cause timeout. -/
theorem transport_failure_becomes_error_payload_witness :
    (search_cell_lines (fun _ => Except.error ("timeout")) ("id:HeLa") none 0 10 none).1
        = errorPayload ("Search failed: timeout")
      ∧ (get_cell_line_info (fun _ => Except.error ("timeout")) ("CVCL_0030") none).1
        = errorPayload ("Failed to get cell line info: timeout") :=
  transport_failure_becomes_error_payload ("timeout") ("id:HeLa") ("CVCL_0030")
    none none 0 10 none none none rfl rfl

/-- Claim C4: on a successful remote response the search and lookup tools
return the decoded JSON value unchanged. -/
theorem success_passes_response_through
    (query accession : String) (fields cfields : Option (List String)) (start rows : Int)
    (sortOrder : Option String) (resp lresp : Json) (fe cfe : Option (List String))
    (hf : fieldsStep fields = Except.ok fe) (hc : fieldsStep cfields = Except.ok cfe) :
    (search_cell_lines (fun _ => Except.ok resp) query fields start rows sortOrder).1 = resp
      ∧ (get_cell_line_info (fun _ => Except.ok lresp) accession cfields).1 = lresp := by
  constructor
  · simp [search_cell_lines, hf, sendSearch]
  · simp [get_cell_line_info, hc, sendGetCellLine]

/-- Witness for claim C4: the stub scenario with query id:HeLa and rows 5
returns the stub response object unchanged. -/
theorem success_passes_response_through_witness :
    (search_cell_lines (fun _ => Except.ok stubSearchResponse) ("id:HeLa") none 0 5 none).1
        = stubSearchResponse
      ∧ (get_cell_line_info (fun _ => Except.ok stubSearchResponse) ("CVCL_0030") none).1
        = stubSearchResponse :=
  success_passes_response_through ("id:HeLa") ("CVCL_0030") none none 0 5 none
    stubSearchResponse stubSearchResponse none none rfl rfl

/-- Claim C5: the parameter builders omit the format key whenever the request
format equals the JSON default, and on the default SearchRequest the built
mapping contains q with value id:HeLa and no format key. -/
theorem default_format_omitted
    (r : SearchRequest) (rc : CellLineRequest)
    (h : r.format = Format.json) (hc : rc.format = Format.json) :
    List.lookup ("format") (build_params_search r) = none
      ∧ List.lookup ("format") (build_params_cell_line rc) = none
      ∧ List.lookup ("q") (build_params_search defaultSearchRequest)
          = some (ParamValue.str ("id:HeLa"))
      ∧ List.lookup ("format") (build_params_search defaultSearchRequest) = none := by
  refine ⟨?_, ?_, rfl, rfl⟩
  · obtain ⟨q, f, st, ro, so, fo⟩ := r
    have h2 : fo = Format.json := h
    subst h2
    cases f with
    | none => cases so <;> rfl
    | some l => cases l <;> cases so <;> rfl
  · obtain ⟨a, f, fo⟩ := rc
    have h2 : fo = Format.json := hc
    subst h2
    cases f with
    | none => rfl
    | some l => cases l <;> rfl

/-- Witness for claim C5 on the default search request and a concrete lookup
request with JSON format. -/
theorem default_format_omitted_witness :
    List.lookup ("format") (build_params_search defaultSearchRequest) = none
      ∧ List.lookup ("format")
          (build_params_cell_line (mkCellLineRequest ("CVCL_0030") (some ["id", "str"]))) = none
      ∧ List.lookup ("q") (build_params_search defaultSearchRequest)
          = some (ParamValue.str ("id:HeLa"))
      ∧ List.lookup ("format") (build_params_search defaultSearchRequest) = none :=
  default_format_omitted defaultSearchRequest
    (mkCellLineRequest ("CVCL_0030") (some ["id", "str"])) rfl rfl

/-- Claim C6: on a request with a non-empty fields list the builder emits the
fields parameter as the comma-joined codes in the order given, while query,
start and rows are carried through verbatim under q, start and rows. -/
theorem fields_comma_joined_in_order
    (r : SearchRequest) (f : String) (fs : List String) (h : r.fields = some (f :: fs)) :
    List.lookup ("fields") (build_params_search r)
        = some (ParamValue.str (String.intercalate (",") (f :: fs)))
      ∧ List.lookup ("q") (build_params_search r) = some (ParamValue.str r.query)
      ∧ List.lookup ("start") (build_params_search r) = some (ParamValue.int r.start)
      ∧ List.lookup ("rows") (build_params_search r) = some (ParamValue.int r.rows) := by
  obtain ⟨q, fl, st, ro, so, fo⟩ := r
  have h2 : fl = some (f :: fs) := h
  subst h2
  refine ⟨?_, ?_, ?_, ?_⟩ <;> (cases so <;> cases fo <;> rfl)

/-- Witness for claim C6: fields id and ac give the string id,ac. -/
theorem fields_comma_joined_in_order_witness :
    List.lookup ("fields")
        (build_params_search (mkSearchRequest ("id:HeLa") (some ["id", "ac"]) 10 20 none))
        = some (ParamValue.str ("id,ac"))
      ∧ List.lookup ("q")
          (build_params_search (mkSearchRequest ("id:HeLa") (some ["id", "ac"]) 10 20 none))
          = some (ParamValue.str ("id:HeLa"))
      ∧ List.lookup ("start")
          (build_params_search (mkSearchRequest ("id:HeLa") (some ["id", "ac"]) 10 20 none))
          = some (ParamValue.int 10)
      ∧ List.lookup ("rows")
          (build_params_search (mkSearchRequest ("id:HeLa") (some ["id", "ac"]) 10 20 none))
          = some (ParamValue.int 20) :=
  fields_comma_joined_in_order (mkSearchRequest ("id:HeLa") (some ["id", "ac"]) 10 20 none)
    ("id") ["ac"] rfl

/-- Claim C7: with a non-empty species the find-by-disease tool composes the
query di:disease followed by a space and ox:species, and delegates to the
search tool with the default disease field list and rows equal to limit. -/
theorem disease_query_composition
    (client : SearchRequest → Except String Json) (disease species : String) (limit : Int)
    (h : species.isEmpty = false) :
    diseaseQuery disease species = ("di:") ++ disease ++ (" ox:") ++ species
      ∧ find_cell_lines_by_disease client disease species none limit
        = search_cell_lines client (diseaseQuery disease species)
            (some diseaseDefaultFields) 0 limit none := by
  constructor
  · unfold diseaseQuery
    rw [h]
    show (("di:") ++ disease) ++ (" ") ++ (("ox:") ++ species)
        = ("di:") ++ disease ++ (" ox:") ++ species
    rw [String.append_assoc (("di:") ++ disease) (" ") (("ox:") ++ species),
      space_ox_append, ← String.append_assoc]
  · rfl

/-- Witness for claim C7 at disease hepatoblastoma and species human. -/
theorem disease_query_composition_witness :
    diseaseQuery ("hepatoblastoma") ("human") = ("di:hepatoblastoma ox:human")
      ∧ find_cell_lines_by_disease (fun _ => Except.ok Json.null)
            ("hepatoblastoma") ("human") none 5
        = search_cell_lines (fun _ => Except.ok Json.null)
            (diseaseQuery ("hepatoblastoma") ("human")) (some diseaseDefaultFields) 0 5 none :=
  disease_query_composition (fun _ => Except.ok Json.null) ("hepatoblastoma") ("human") 5 rfl

/-- Claim C8: the list-available-fields tool is a constant pure definition
(no side effects or failure are possible in this embedding) whose mapping
contains the keys id, ac, ox, di and str, each with a non-empty description. -/
theorem list_available_fields_core_keys :
    Option.getD (List.lookup ("id") list_available_fields) ("") ≠ ("")
      ∧ Option.getD (List.lookup ("ac") list_available_fields) ("") ≠ ("")
      ∧ Option.getD (List.lookup ("ox") list_available_fields) ("") ≠ ("")
      ∧ Option.getD (List.lookup ("di") list_available_fields) ("") ≠ ("")
      ∧ Option.getD (List.lookup ("str") list_available_fields) ("") ≠ ("") := by
  refine ⟨?_, ?_, ?_, ?_, ?_⟩ <;> decide

/-- Claim C9: with an empty species string the ox filter is omitted entirely:
the composed query is exactly the disease or tissue term with no trailing
space, and the find tools delegate with that query. -/
theorem empty_species_omits_ox_filter
    (client : SearchRequest → Except String Json) (disease tissue : String)
    (fields tfields : Option (List String)) (limit tlimit : Int) :
    diseaseQuery disease ("") = ("di:") ++ disease
      ∧ tissueQuery tissue ("") = ("derived-from-site:") ++ tissue
      ∧ find_cell_lines_by_disease client disease ("") fields limit
        = search_cell_lines client (("di:") ++ disease)
            (some (pyFieldsOr fields diseaseDefaultFields)) 0 limit none
      ∧ find_cell_lines_by_tissue client tissue ("") tfields tlimit
        = search_cell_lines client (("derived-from-site:") ++ tissue)
            (some (pyFieldsOr tfields tissueDefaultFields)) 0 tlimit none :=
  ⟨rfl, rfl, rfl, rfl⟩

/-- Claim C10: passing an empty fields list to the find tools behaves like
passing no fields at all: the default field list of the respective tool is
substituted rather than an empty field set being requested. -/
theorem empty_fields_list_uses_defaults
    (client : SearchRequest → Except String Json) (disease tissue species : String)
    (limit tlimit : Int) :
    find_cell_lines_by_disease client disease species (some []) limit
        = find_cell_lines_by_disease client disease species none limit
      ∧ find_cell_lines_by_disease client disease species none limit
        = search_cell_lines client (diseaseQuery disease species)
            (some diseaseDefaultFields) 0 limit none
      ∧ find_cell_lines_by_tissue client tissue species (some []) tlimit
        = find_cell_lines_by_tissue client tissue species none tlimit
      ∧ find_cell_lines_by_tissue client tissue species none tlimit
        = search_cell_lines client (tissueQuery tissue species)
            (some tissueDefaultFields) 0 tlimit none :=
  ⟨rfl, rfl, rfl, rfl⟩
